import Mathlib

/-!
Shallow embedding of the Kubernetes service-discovery controller
(`platform/kube/controller.go`): the controller state, the mirror stores,
the pod/IP index, the handler-chain stages and the catalog queries.
Definitions are translated from the Go source; helpers whose source is not
part of the provided files (hostname parsing, service conversion, the tag
subset filter, the pod cache and key function) are modelled from the spec
and say so in their doc comment.
-/

namespace PilotKube

/-- Event kinds delivered by a resource mirror (model.Event in the source). -/
inductive Event where
  | add
  | update
  | delete
deriving DecidableEq, Repr

/-- A tag set: label key/value pairs (model.Tags, a Go map). -/
abbrev Tags := List (String × String)

/-- A list of alternative tag sets used as a query filter (model.TagsList). -/
abbrev TagsList := List Tags

/-- Lookup in an association list, the model of a Go map read. -/
def assocLookup (l : List (String × String)) (k : String) : Option String :=
  (l.find? (fun kv => kv.1 == k)).map (fun kv => kv.2)

/-- Modelled from the spec: a tag set is a subset of another when every
key/value pair of the first occurs in the second (model.Tags.SubsetOf is
not part of the provided sources). -/
def subsetOf (a b : Tags) : Bool :=
  a.all (fun kv => assocLookup b kv.1 == some kv.2)

/-- Modelled from the spec: a tag filter matches a tag set when it is empty
or some alternative in it is a subset of the tag set (model.TagsList.HasSubsetOf
is not part of the provided sources). -/
def hasSubsetOf (filter : TagsList) (tags : Tags) : Bool :=
  filter.isEmpty || filter.any (fun alt => subsetOf alt tags)

/-- A named service port (model.Port). -/
structure Port where
  name : String
  port : Nat
  protocol : String
deriving DecidableEq, Repr, Inhabited

/-- A converted high-level service (model.Service). -/
structure Service where
  hostname : String
  ports : List Port
deriving DecidableEq, Repr, Inhabited

/-- A network endpoint of a service instance (model.NetworkEndpoint). -/
structure NetworkEndpoint where
  address : String
  port : Nat
  servicePort : Port
deriving DecidableEq, Repr, Inhabited

/-- A concrete backend of a service (model.ServiceInstance). -/
structure ServiceInstance where
  endpoint : NetworkEndpoint
  service : Service
  tags : Tags
  availabilityZone : String
deriving DecidableEq, Repr, Inhabited

/-- A cached v1.Service mirror entry. The `malformed` flag models the spec
rule that entries may fail conversion to the high-level Service; the
conversion rule itself is not part of the provided sources. -/
structure KubeService where
  name : String
  ns : String
  ports : List Port
  malformed : Bool
deriving DecidableEq, Repr

/-- One address inside a v1.Endpoints subset. -/
structure EndpointAddress where
  ip : String
deriving DecidableEq, Repr

/-- One named port inside a v1.Endpoints subset. -/
structure EndpointPort where
  name : String
  port : Nat
deriving DecidableEq, Repr

/-- A v1.EndpointSubset: addresses crossed with ports. -/
structure EndpointSubset where
  addresses : List EndpointAddress
  ports : List EndpointPort
deriving DecidableEq, Repr

/-- A cached v1.Endpoints mirror entry. -/
structure KubeEndpoints where
  name : String
  ns : String
  subsets : List EndpointSubset
deriving DecidableEq, Repr

/-- A cached v1.Pod mirror entry, restricted to the fields the controller reads. -/
structure KubePod where
  name : String
  ns : String
  labels : Tags
  nodeName : String
  serviceAccountName : String
deriving DecidableEq, Repr

/-- A cached v1.Node mirror entry. -/
structure KubeNode where
  name : String
  labels : Tags
deriving DecidableEq, Repr

/-- Modelled from the spec: the store key of a namespaced object is
`namespace/name` (the KeyFunc helper is not part of the provided sources). -/
def KeyFunc (name ns : String) : String :=
  if ns == "" then name else ns ++ "/" ++ name

/-- Modelled from the spec: the Pod/IP secondary index, mapping an IP
address to the store key of a pod, next to the pod mirror store itself
(the PodCache type is not part of the provided sources). -/
structure PodCache where
  keys : List (String × String)
  store : List KubePod
deriving Repr

/-- Point lookup of the pod mirror store by store key. -/
def podByKey (store : List KubePod) (key : String) : Option KubePod :=
  store.find? (fun p => KeyFunc p.name p.ns == key)

/-- Modelled from the spec: resolve an IP address through the Pod/IP index
to the cached pod (PodCache.getPodByIP is not part of the provided sources). -/
def getPodByIP (pc : PodCache) (addr : String) : Option KubePod :=
  (assocLookup pc.keys addr).bind (podByKey pc.store)

/-- Modelled from the spec: the tag set of the pod behind an IP address
(PodCache.tagsByIP is not part of the provided sources). -/
def tagsByIP (pc : PodCache) (addr : String) : Option Tags :=
  (getPodByIP pc addr).map (fun p => p.labels)

/-- The controller: one mirror store per resource kind, the Pod/IP index,
and one initial-sync flag per informer. -/
structure ControllerState where
  domainSuffix : String
  services : List KubeService
  endpoints : List KubeEndpoints
  nodes : List KubeNode
  pods : PodCache
  servicesSynced : Bool
  endpointsSynced : Bool
  podsSynced : Bool
  nodesSynced : Bool
deriving Repr

/-- HasSynced returns true after the initial state synchronization: it
consults the services, endpoints and pods informers. -/
def HasSynced (c : ControllerState) : Bool :=
  if !c.servicesSynced || !c.endpointsSynced || !c.podsSynced then false
  else true

/-- The first handler in every chain: fails until HasSynced, and otherwise
succeeds; the key derivation outcome is only logged by the source, so it is
carried here as an argument that the result never depends on. -/
def notify (c : ControllerState) (_key : Except String String) (_e : Event) :
    Except String Unit :=
  if !(HasSynced c) then Except.error "Waiting till full synchronization"
  else Except.ok ()

/-- A queued unit of work produced by an informer callback. -/
structure Task (α : Type) where
  obj : α
  event : Event
deriving DecidableEq, Repr

/-- The informer Add callback: always pushes one task. -/
def onAdd {α : Type} (q : List (Task α)) (obj : α) : List (Task α) :=
  q ++ [⟨obj, Event.add⟩]

/-- The informer Update callback: pushes one task unless the new value is
deeply equal to the old value (reflect.DeepEqual in the source). -/
def onUpdate {α : Type} [DecidableEq α] (q : List (Task α)) (old cur : α) :
    List (Task α) :=
  if old = cur then q else q ++ [⟨cur, Event.update⟩]

/-- The informer Delete callback: always pushes one task. -/
def onDelete {α : Type} (q : List (Task α)) (obj : α) : List (Task α) :=
  q ++ [⟨obj, Event.delete⟩]

/-- Modelled from the spec: hostname = `<name>.<namespace>.<suffix>` (the
serviceHostname helper is not part of the provided sources). -/
def serviceHostname (name ns suffix : String) : String :=
  name ++ "." ++ ns ++ "." ++ suffix

/-- Split a character list into the dot-separated groups. -/
def splitDots : List Char → List (List Char)
  | [] => [[]]
  | c :: rest =>
      match splitDots rest with
      | [] => [[]]
      | g :: gs => if c = '.' then [] :: g :: gs else (c :: g) :: gs

/-- Modelled from the spec: parsing a hostname of the form
`<name>.<namespace>.<suffix>` takes the first two dot-separated components
as service name and namespace, and fails when there are fewer than two
(the parseHostname helper is not part of the provided sources). -/
def parseHostname (hostname : String) : Option (String × String) :=
  match splitDots hostname.data with
  | name :: ns :: _ => some (String.mk name, String.mk ns)
  | _ => none

/-- serviceByKey retrieves a service mirror entry by name and namespace. -/
def serviceByKey (c : ControllerState) (name ns : String) : Option KubeService :=
  c.services.find? (fun s => s.name == name && s.ns == ns)

/-- Modelled from the spec: conversion of a Service mirror entry into the
high-level Service — hostname from name, namespace and domain suffix, the
named ports carried over; malformed/unsupported entries fail conversion
(the convertService rule is not part of the provided sources). -/
def convertService (svc : KubeService) (domainSuffix : String) : Option Service :=
  if svc.malformed then none
  else some { hostname := serviceHostname svc.name svc.ns domainSuffix,
              ports := svc.ports }

/-- Modelled from the spec: lookup of a named port in the ordered port list
of a Service (model.PortList.Get is not part of the provided sources). -/
def portsGet (ports : List Port) (name : String) : Option Port :=
  ports.find? (fun p => p.name == name)

/-- The svcPorts map built by Instances: a requested port name resolves to
the service port of that name when the service has one. -/
def svcPortsLookup (svc : Service) (ports : List String) (pname : String) :
    Option Port :=
  if ports.contains pname then portsGet svc.ports pname else none

/-- Point lookup of the node mirror store; cluster-scoped, keyed by name. -/
def nodeByKey (nodes : List KubeNode) (key : String) : Option KubeNode :=
  nodes.find? (fun n => n.name == key)

/-- NodeRegionLabel is the well-known label for kubernetes node region. -/
def NodeRegionLabel : String := "failure-domain.beta.kubernetes.io/region"

/-- NodeZoneLabel is the well-known label for kubernetes node zone. -/
def NodeZoneLabel : String := "failure-domain.beta.kubernetes.io/zone"

/-- getPodAZByIP retrieves the pods AZ using its IP: pod by IP, then node by
the pod's node name, then the region and zone labels, joined as region/zone;
any miss yields none. -/
def getPodAZByIP (c : ControllerState) (addr : String) : Option String :=
  match getPodByIP c.pods addr with
  | none => none
  | some pod =>
    match nodeByKey c.nodes pod.nodeName with
    | none => none
    | some node =>
      match assocLookup node.labels NodeRegionLabel with
      | none => none
      | some region =>
        match assocLookup node.labels NodeZoneLabel with
        | none => none
        | some zone => some (region ++ "/" ++ zone)

/-- The instances one endpoint subset contributes in Instances: each address
passing the tag filter yields one instance per subset port resolved through
the svcPorts map, with the pod tags and the availability zone attached. -/
def instancesOfSubset (c : ControllerState) (svc : Service) (ports : List String)
    (tagsList : TagsList) (ss : EndpointSubset) : List ServiceInstance :=
  ss.addresses.flatMap (fun ea =>
    if !(hasSubsetOf tagsList ((tagsByIP c.pods ea.ip).getD [])) then []
    else
      ss.ports.filterMap (fun port =>
        match svcPortsLookup svc ports port.name with
        | some svcPort =>
            some { endpoint := { address := ea.ip, port := port.port,
                                 servicePort := svcPort },
                   service := svc, tags := (tagsByIP c.pods ea.ip).getD [],
                   availabilityZone := (getPodAZByIP c ea.ip).getD "" }
        | none => none))

/-- Instances implements a service catalog operation: parse the hostname,
resolve and convert the service, restrict to the requested named ports,
then scan the endpoints mirror for the entry of the same name and namespace
and join its subsets against the pod index and node mirror. -/
def Instances (c : ControllerState) (hostname : String) (ports : List String)
    (tagsList : TagsList) : List ServiceInstance :=
  match parseHostname hostname with
  | none => []
  | some (name, ns) =>
    match serviceByKey c name ns with
    | none => []
    | some item =>
      match convertService item c.domainSuffix with
      | none => []
      | some svc =>
        match c.endpoints.find? (fun ep => ep.name == name && ep.ns == ns) with
        | none => []
        | some ep => ep.subsets.flatMap (instancesOfSubset c svc ports tagsList)

/-- The URI scheme used to encode a Kubernetes service account. -/
def uriScheme : String := "spiffe"

/-- Encode a service account per the SPIFFE VSID spec:
`<scheme>://<domain>/ns/<namespace>/sa/<account>`. -/
def generateServiceAccountID (sa ns domain : String) : String :=
  uriScheme ++ "://" ++ domain ++ "/ns/" ++ ns ++ "/sa/" ++ sa

/-- Insertion into the saSet accumulator: the Go map keeps one copy per
identity string. -/
def insertSA (l : List String) (sa : String) : List String :=
  if l.contains sa then l else l ++ [sa]

/-- One iteration of the GetIstioServiceAccounts loop: resolve the instance
address through the pod index and store and, when both lookups hit, add the
encoded service account of the pod to the set. -/
def saStep (c : ControllerState) (acc : List String) (si : ServiceInstance) :
    List String :=
  match assocLookup c.pods.keys si.endpoint.address with
  | none => acc
  | some key =>
    match podByKey c.pods.store key with
    | none => acc
    | some pod =>
        insertSA acc
          (generateServiceAccountID pod.serviceAccountName pod.ns
            c.domainSuffix)

/-- GetIstioServiceAccounts returns the Istio service accounts running a
service hostname: for each instance, resolve the endpoint address through
the pod index and store, encode the pod's service account, and collect the
encodings into a set. -/
def GetIstioServiceAccounts (c : ControllerState) (hostname : String)
    (ports : List String) : List String :=
  (Instances c hostname ports []).foldl (saStep c) []

/-- The handler stage appended by AppendServiceHandler, as the list of
callback invocations it performs (converted service, event) paired with the
error it returns to the chain. -/
def serviceHandlerStage (c : ControllerState) (obj : KubeService) (e : Event) :
    List (Service × Event) × Except String Unit :=
  match convertService obj c.domainSuffix with
  | some svc => ([(svc, e)], Except.ok ())
  | none => ([], Except.ok ())

/-- The handler stage appended by AppendInstanceHandler, as the list of
callback invocations it performs (service instance, event) paired with the
error it returns to the chain; the instance passed to the callback has only
the Service field populated. -/
def instanceHandlerStage (c : ControllerState) (ep : KubeEndpoints) (e : Event) :
    List (ServiceInstance × Event) × Except String Unit :=
  match serviceByKey c ep.name ep.ns with
  | none => ([], Except.ok ())
  | some item =>
    match convertService item c.domainSuffix with
    | none => ([], Except.ok ())
    | some svc =>
        ([({ endpoint := default, service := svc, tags := [],
             availabilityZone := "" }, e)], Except.ok ())


/-! Concrete states used by the example-level parts of the theorems below. -/

/-- A pod cache with no entries. -/
def emptyPods : PodCache := { keys := [], store := [] }

/-- A service mirror entry with the two named ports http:80 and grpc:90. -/
def demoSvc : KubeService :=
  { name := "svc", ns := "ns1",
    ports := [⟨"http", 80, "HTTP"⟩, ⟨"grpc", 90, "GRPC"⟩], malformed := false }

/-- The conversion of demoSvc under the domain suffix cluster.local. -/
def demoConvSvc : Service :=
  { hostname := "svc.ns1.cluster.local",
    ports := [⟨"http", 80, "HTTP"⟩, ⟨"grpc", 90, "GRPC"⟩] }

/-- An endpoints mirror entry of the same name and namespace as demoSvc, one
address exposing both named ports. -/
def c3ep : KubeEndpoints :=
  { name := "svc", ns := "ns1",
    subsets := [{ addresses := [⟨"10.0.0.1"⟩],
                  ports := [⟨"http", 80⟩, ⟨"grpc", 90⟩] }] }

/-- Fully synced controller holding demoSvc and c3ep, with empty pod and node
mirrors. -/
def c3state : ControllerState :=
  { domainSuffix := "cluster.local", services := [demoSvc], endpoints := [c3ep],
    nodes := [], pods := emptyPods,
    servicesSynced := true, endpointsSynced := true, podsSynced := true,
    nodesSynced := true }

/-- The single instance the join query is expected to return on c3state. -/
def c3inst : ServiceInstance :=
  { endpoint := { address := "10.0.0.1", port := 80,
                  servicePort := ⟨"http", 80, "HTTP"⟩ },
    service := demoConvSvc, tags := [], availabilityZone := "" }

/-- Like c3state but the endpoints entry carries a different name, so it does
not match the parsed hostname. -/
def c3stateOther : ControllerState :=
  { c3state with
    endpoints := [{ name := "other", ns := "ns1",
                    subsets := [{ addresses := [⟨"10.0.0.1"⟩],
                                  ports := [⟨"http", 80⟩] }] }] }

/-- A pod whose tag set is version:v1, env:prod. -/
def c4pod1 : KubePod :=
  { name := "pod1", ns := "ns1", labels := [("version", "v1"), ("env", "prod")],
    nodeName := "node1", serviceAccountName := "sa1" }

/-- A pod whose tag set is version:v2. -/
def c4pod2 : KubePod :=
  { name := "pod2", ns := "ns1", labels := [("version", "v2")],
    nodeName := "node1", serviceAccountName := "sa2" }

/-- A pod cache indexing the two pods by their IP addresses. -/
def c4pods : PodCache :=
  { keys := [("10.0.0.1", "ns1/pod1"), ("10.0.0.2", "ns1/pod2")],
    store := [c4pod1, c4pod2] }

/-- Endpoints entry exposing the two pod addresses on the http port. -/
def c4ep : KubeEndpoints :=
  { name := "svc", ns := "ns1",
    subsets := [{ addresses := [⟨"10.0.0.1"⟩, ⟨"10.0.0.2"⟩],
                  ports := [⟨"http", 80⟩] }] }

/-- Fully synced controller for the tag-filter scenario. -/
def c4state : ControllerState :=
  { domainSuffix := "cluster.local", services := [demoSvc], endpoints := [c4ep],
    nodes := [], pods := c4pods,
    servicesSynced := true, endpointsSynced := true, podsSynced := true,
    nodesSynced := true }

/-- The instance backed by the version:v1 pod. -/
def c4inst : ServiceInstance :=
  { endpoint := { address := "10.0.0.1", port := 80,
                  servicePort := ⟨"http", 80, "HTTP"⟩ },
    service := demoConvSvc, tags := [("version", "v1"), ("env", "prod")],
    availabilityZone := "" }

/-- A node carrying both the region and the zone label. -/
def c6node : KubeNode :=
  { name := "node1",
    labels := [(NodeRegionLabel, "us-central1"),
               (NodeZoneLabel, "us-central1-a")] }

/-- A pod scheduled on the known node node1. -/
def c6podA : KubePod :=
  { name := "podA", ns := "ns1", labels := [], nodeName := "node1",
    serviceAccountName := "saA" }

/-- A pod scheduled on node2, which is absent from the node mirror. -/
def c6podB : KubePod :=
  { name := "podB", ns := "ns1", labels := [], nodeName := "node2",
    serviceAccountName := "saB" }

/-- Fully synced controller for the locality-fallback scenario: two endpoint
addresses, one with a full locality chain, one whose node lookup misses. -/
def c6state : ControllerState :=
  { domainSuffix := "cluster.local", services := [demoSvc],
    endpoints := [{ name := "svc", ns := "ns1",
                    subsets := [{ addresses := [⟨"10.0.0.1"⟩, ⟨"10.0.0.2"⟩],
                                  ports := [⟨"http", 80⟩] }] }],
    nodes := [c6node],
    pods := { keys := [("10.0.0.1", "ns1/podA"), ("10.0.0.2", "ns1/podB")],
              store := [c6podA, c6podB] },
    servicesSynced := true, endpointsSynced := true, podsSynced := true,
    nodesSynced := true }

/-- The instance whose locality resolves to region/zone. -/
def c6instA : ServiceInstance :=
  { endpoint := { address := "10.0.0.1", port := 80,
                  servicePort := ⟨"http", 80, "HTTP"⟩ },
    service := demoConvSvc, tags := [],
    availabilityZone := "us-central1/us-central1-a" }

/-- The instance whose node lookup misses: locality is the empty string. -/
def c6instB : ServiceInstance :=
  { endpoint := { address := "10.0.0.2", port := 80,
                  servicePort := ⟨"http", 80, "HTTP"⟩ },
    service := demoConvSvc, tags := [], availabilityZone := "" }

/-- A controller state whose node informer has not completed its initial list
while the three consulted informers have. -/
def c1state : ControllerState :=
  { domainSuffix := "cluster.local", services := [], endpoints := [],
    nodes := [], pods := emptyPods,
    servicesSynced := true, endpointsSynced := true, podsSynced := true,
    nodesSynced := false }

/-- The callback invocation the instance-handler stage performs on c3state. -/
def c9pair : ServiceInstance × Event :=
  ({ endpoint := default, service := demoConvSvc, tags := [],
     availabilityZone := "" }, Event.add)

/-- The callback invocation the service-handler stage performs on c3state. -/
def c10pair : Service × Event := (demoConvSvc, Event.add)

/-! Helper lemmas. -/

/-- Unfolding equation for splitDots on a cons cell. -/
theorem splitDots_cons (c : Char) (rest : List Char) :
    splitDots (c :: rest) =
      match splitDots rest with
      | [] => [[]]
      | g :: gs => if c = '.' then [] :: g :: gs else (c :: g) :: gs := rfl

/-- splitDots always yields at least one group. -/
theorem splitDots_ne_nil (l : List Char) : splitDots l ≠ [] := by
  cases l with
  | nil => simp [splitDots]
  | cons c rest =>
    rw [splitDots_cons]
    split
    · simp
    · split <;> simp

/-- splitDots peels off a dot-free leading group. -/
theorem splitDots_append_dot (n rest : List Char) (h : ∀ ch ∈ n, ch ≠ '.') :
    splitDots (n ++ '.' :: rest) = n :: splitDots rest := by
  induction n with
  | nil =>
    simp only [List.nil_append]
    rw [splitDots_cons]
    rcases hs : splitDots rest with _ | ⟨g, gs⟩
    · exact absurd hs (splitDots_ne_nil rest)
    · simp
  | cons c cs ih =>
    have hc : c ≠ '.' := h c (by simp)
    have ih2 := ih (fun ch hch => h ch (by simp [hch]))
    simp only [List.cons_append]
    rw [splitDots_cons, ih2]
    simp [hc]

/-- Parsing a constructed hostname with dot-free name and namespace yields
them back. -/
theorem parseHostname_serviceHostname (name ns suffix : String)
    (h1 : ∀ ch ∈ name.data, ch ≠ '.') (h2 : ∀ ch ∈ ns.data, ch ≠ '.') :
    parseHostname (serviceHostname name ns suffix) = some (name, ns) := by
  have hdata : (serviceHostname name ns suffix).data =
      name.data ++ '.' :: (ns.data ++ '.' :: suffix.data) := by
    simp [serviceHostname, String.data_append]
  unfold parseHostname
  rw [hdata, splitDots_append_dot _ _ h1, splitDots_append_dot _ _ h2]

/-- Every instance contributed by a subset passed the tag filter, carries a
requested port name, and belongs to the resolved service. -/
theorem mem_instancesOfSubset {c : ControllerState} {svc : Service}
    {ports : List String} {tagsList : TagsList} {ss : EndpointSubset}
    {si : ServiceInstance} (h : si ∈ instancesOfSubset c svc ports tagsList ss) :
    hasSubsetOf tagsList si.tags = true ∧
    ports.contains si.endpoint.servicePort.name = true ∧
    si.service = svc := by
  unfold instancesOfSubset at h
  simp only [List.mem_flatMap] at h
  obtain ⟨ea, -, h⟩ := h
  split at h
  · simp at h
  · next hfilter =>
    simp only [List.mem_filterMap] at h
    obtain ⟨port, -, hf⟩ := h
    split at hf
    · next svcPort hlook =>
      cases hf
      refine ⟨?_, ?_, rfl⟩
      · simpa using hfilter
      · unfold svcPortsLookup at hlook
        split at hlook
        · next hmem =>
          have := List.find?_some hlook
          simp only [beq_iff_eq] at this
          simpa [this] using hmem
        · exact absurd hlook (by simp)
    · exact absurd hf (by simp)

/-- Every instance returned by Instances passed the tag filter and carries a
requested port name. -/
theorem mem_Instances {c : ControllerState} {hostname : String}
    {ports : List String} {tagsList : TagsList} {si : ServiceInstance}
    (h : si ∈ Instances c hostname ports tagsList) :
    hasSubsetOf tagsList si.tags = true ∧
    ports.contains si.endpoint.servicePort.name = true := by
  unfold Instances at h
  split at h
  · simp at h
  · split at h
    · simp at h
    · split at h
      · simp at h
      · split at h
        · simp at h
        · simp only [List.mem_flatMap] at h
          obtain ⟨ss, -, h⟩ := h
          exact ⟨(mem_instancesOfSubset h).1, (mem_instancesOfSubset h).2.1⟩

/-- Adding to the account set preserves distinctness. -/
theorem insertSA_nodup {l : List String} {sa : String} (h : l.Nodup) :
    (insertSA l sa).Nodup := by
  unfold insertSA
  split
  · exact h
  · next hc =>
    have hn : sa ∉ l := by simpa using hc
    simp [List.nodup_append, h, hn]

/-- One loop iteration of GetIstioServiceAccounts preserves distinctness. -/
theorem saStep_nodup {c : ControllerState} {acc : List String}
    {si : ServiceInstance} (h : acc.Nodup) : (saStep c acc si).Nodup := by
  unfold saStep
  split
  · exact h
  · split
    · exact h
    · exact insertSA_nodup h

/-- The whole GetIstioServiceAccounts loop preserves distinctness. -/
theorem foldl_saStep_nodup {c : ControllerState} (sis : List ServiceInstance) :
    ∀ acc : List String, acc.Nodup → (sis.foldl (saStep c) acc).Nodup := by
  induction sis with
  | nil => intro acc h; exact h
  | cons si rest ih => intro acc h; exact ih _ (saStep_nodup h)

/-- Membership after inserting into the account set. -/
theorem mem_insertSA {l : List String} {sa x : String} (h : x ∈ insertSA l sa) :
    x ∈ l ∨ x = sa := by
  unfold insertSA at h
  split at h
  · exact Or.inl h
  · rcases List.mem_append.mp h with h | h
    · exact Or.inl h
    · simp at h; exact Or.inr h

/-- Every string the GetIstioServiceAccounts loop accumulates is an encoded
identity under the controller's domain suffix. -/
theorem foldl_saStep_format {c : ControllerState} (sis : List ServiceInstance) :
    ∀ acc : List String,
      (∀ sa ∈ acc, ∃ a n, sa = generateServiceAccountID a n c.domainSuffix) →
      ∀ sa ∈ sis.foldl (saStep c) acc,
        ∃ a n, sa = generateServiceAccountID a n c.domainSuffix := by
  induction sis with
  | nil => intro acc h; exact h
  | cons si rest ih =>
    intro acc h
    refine ih _ ?_
    intro sa hsa
    unfold saStep at hsa
    split at hsa
    · exact h sa hsa
    · split at hsa
      · exact h sa hsa
      · next pod _ =>
        rcases mem_insertSA hsa with h1 | h1
        · exact h sa h1
        · exact ⟨pod.serviceAccountName, pod.ns, h1⟩

/-! Claim theorems. -/

/-- C1, counterexample: the claim says HasSynced is false whenever any of the
Service, Endpoints, Pod and Node mirrors has not completed its initial list;
but in a state where only the Node mirror is unsynced, HasSynced is already
true, because the source consults only the services, endpoints and pods
informers. -/
theorem c1_nodes_not_consulted_counterexample :
    HasSynced c1state = true ∧ c1state.nodesSynced = false :=
  ⟨rfl, rfl⟩

/-- C1, amended: HasSynced is true exactly when the Service, Endpoints and
Pod mirrors have completed their initial lists; the Node mirror's sync state
is never consulted. -/
theorem c1_hasSynced_amended (c : ControllerState) (b : Bool) :
    (HasSynced c = true ↔
      c.servicesSynced = true ∧ c.endpointsSynced = true ∧
      c.podsSynced = true) ∧
    HasSynced { c with nodesSynced := b } = HasSynced c := by
  constructor
  · unfold HasSynced
    rcases hs : c.servicesSynced <;> rcases he : c.endpointsSynced <;>
      rcases hp : c.podsSynced <;> simp [hs, he, hp]
  · rfl

/-- C2: for every object key derivation outcome and event, notify fails with
the synchronization error exactly when HasSynced is false, and succeeds
exactly when HasSynced is true; no other condition, including a failed key
derivation, affects the result. -/
theorem c2_notify_gates_on_sync (c : ControllerState)
    (key : Except String String) (e : Event) :
    (notify c key e = Except.error "Waiting till full synchronization" ↔
      HasSynced c = false) ∧
    (notify c key e = Except.ok () ↔ HasSynced c = true) := by
  unfold notify
  rcases h : HasSynced c <;> simp

/-- C3: on a service with named ports http:80 and grpc:90 and an endpoints
entry of the same name and namespace exposing both ports on one address,
Instances restricted to the http port returns exactly one instance whose
matched service port is http:80 and none for grpc:90; an endpoints entry of
a different name contributes nothing; and in general every returned instance
carries one of the requested port names. -/
theorem c3_instances_join :
    Instances c3state "svc.ns1.cluster.local" ["http"] [] = [c3inst] ∧
    Instances c3stateOther "svc.ns1.cluster.local" ["http"] [] = [] ∧
    ∀ (c : ControllerState) (hostname : String) (ports : List String)
      (tagsList : TagsList) (si : ServiceInstance),
      si ∈ Instances c hostname ports tagsList →
      ports.contains si.endpoint.servicePort.name = true := by
  refine ⟨by decide, by decide, ?_⟩
  intro c hostname ports tagsList si h
  exact (mem_Instances h).2

/-- C3 witness: the single returned instance is a member of the result and
its matched service port name is among the requested ports. -/
theorem c3_instances_join_witness :
    c3inst ∈ Instances c3state "svc.ns1.cluster.local" ["http"] [] ∧
    (["http"] : List String).contains c3inst.endpoint.servicePort.name = true :=
  ⟨by decide,
   c3_instances_join.2.2 c3state "svc.ns1.cluster.local" ["http"] [] c3inst
     (by decide)⟩

/-- C4: the filter version:v1 matches the tag set version:v1, env:prod, the
filter version:v2 does not, the empty filter matches every tag set; on a
state with one pod of each tag set, Instances under the version:v1 filter
returns only the instance of the matching address; and in general every
instance returned by Instances has a tag set matched by the requested
filter. -/
theorem c4_tag_filter :
    hasSubsetOf [[("version", "v1")]] [("version", "v1"), ("env", "prod")] =
      true ∧
    hasSubsetOf [[("version", "v2")]] [("version", "v1"), ("env", "prod")] =
      false ∧
    (∀ tags : Tags, hasSubsetOf [] tags = true) ∧
    Instances c4state "svc.ns1.cluster.local" ["http"] [[("version", "v1")]] =
      [c4inst] ∧
    ∀ (c : ControllerState) (hostname : String) (ports : List String)
      (tagsList : TagsList) (si : ServiceInstance),
      si ∈ Instances c hostname ports tagsList →
      hasSubsetOf tagsList si.tags = true := by
  refine ⟨by decide, by decide, fun tags => rfl, by decide, ?_⟩
  intro c hostname ports tagsList si h
  exact (mem_Instances h).1

/-- C4 witness: the instance returned under the version:v1 filter is a member
of the result and its tag set is matched by that filter. -/
theorem c4_tag_filter_witness :
    c4inst ∈
      Instances c4state "svc.ns1.cluster.local" ["http"] [[("version", "v1")]] ∧
    hasSubsetOf [[("version", "v1")]] c4inst.tags = true :=
  ⟨by decide,
   c4_tag_filter.2.2.2.2 c4state "svc.ns1.cluster.local" ["http"]
     [[("version", "v1")]] c4inst (by decide)⟩

/-- C5: the informer update callback pushes a task exactly when the new value
is not deeply equal to the old one — a no-op update leaves the queue
unchanged — while the add and delete callbacks always push exactly one
task. -/
theorem c5_update_no_op_suppressed (α : Type) [DecidableEq α]
    (q : List (Task α)) (old cur obj : α) :
    (onUpdate q old cur = q ↔ old = cur) ∧
    (onUpdate q old cur = q ++ [⟨cur, Event.update⟩] ↔ old ≠ cur) ∧
    onAdd q obj = q ++ [⟨obj, Event.add⟩] ∧
    onDelete q obj = q ++ [⟨obj, Event.delete⟩] := by
  unfold onUpdate onAdd onDelete
  rcases eq_or_ne old cur with h | h <;> simp [h]

/-- C6: getPodAZByIP yields a locality exactly when the pod lookup, the node
lookup, and the region and zone labels all resolve, in which case it is
region/zone; and on a state where one address has a full chain and the other
has no node entry, both instances are returned, the latter with an empty
availability zone rather than being dropped. -/
theorem c6_locality_fallback :
    (∀ (c : ControllerState) (addr az : String),
      getPodAZByIP c addr = some az ↔
      ∃ pod node region zone,
        getPodByIP c.pods addr = some pod ∧
        nodeByKey c.nodes pod.nodeName = some node ∧
        assocLookup node.labels NodeRegionLabel = some region ∧
        assocLookup node.labels NodeZoneLabel = some zone ∧
        az = region ++ "/" ++ zone) ∧
    Instances c6state "svc.ns1.cluster.local" ["http"] [] =
      [c6instA, c6instB] := by
  refine ⟨?_, by decide⟩
  intro c addr az
  unfold getPodAZByIP
  rcases hpod : getPodByIP c.pods addr with _ | pod
  · simp [hpod]
  · rcases hnode : nodeByKey c.nodes pod.nodeName with _ | node
    · simp [hpod, hnode]
    · rcases hr : assocLookup node.labels NodeRegionLabel with _ | region
      · simp [hpod, hnode, hr]
      · rcases hz : assocLookup node.labels NodeZoneLabel with _ | zone
        · simp [hpod, hnode, hr, hz]
        · simp [hpod, hnode, hr, hz, eq_comm]

/-- C7: a service account encodes as
`spiffe://<domain>/ns/<namespace>/sa/<account>` — in particular bar in foo
under cluster.local encodes to spiffe://cluster.local/ns/foo/sa/bar — and
GetIstioServiceAccounts returns a duplicate-free list of such encodings. -/
theorem c7_identity_encoding :
    generateServiceAccountID "bar" "foo" "cluster.local" =
      "spiffe://cluster.local/ns/foo/sa/bar" ∧
    (∀ sa ns d : String,
      generateServiceAccountID sa ns d =
        "spiffe://" ++ d ++ "/ns/" ++ ns ++ "/sa/" ++ sa) ∧
    (∀ (c : ControllerState) (hostname : String) (ports : List String),
      (GetIstioServiceAccounts c hostname ports).Nodup) ∧
    ∀ (c : ControllerState) (hostname : String) (ports : List String)
      (sa : String), sa ∈ GetIstioServiceAccounts c hostname ports →
      ∃ a n, sa = generateServiceAccountID a n c.domainSuffix := by
  refine ⟨by decide, ?_, ?_, ?_⟩
  · intro sa ns d
    unfold generateServiceAccountID uriScheme
    rw [show ("spiffe" ++ "://" : String) = "spiffe://" from rfl]
  · intro c hostname ports
    exact foldl_saStep_nodup _ _ List.nodup_nil
  · intro c hostname ports sa h
    exact foldl_saStep_format _ _ (by simp) sa h

/-- C7 witness: a concrete returned identity is a member of the result and
has the encoded form under the controller's domain suffix. -/
theorem c7_identity_encoding_witness :
    "spiffe://cluster.local/ns/ns1/sa/saA" ∈
      GetIstioServiceAccounts c6state "svc.ns1.cluster.local" ["http"] ∧
    ∃ a n, "spiffe://cluster.local/ns/ns1/sa/saA" =
      generateServiceAccountID a n c6state.domainSuffix :=
  ⟨by decide,
   c7_identity_encoding.2.2.2 c6state "svc.ns1.cluster.local" ["http"]
     "spiffe://cluster.local/ns/ns1/sa/saA" (by decide)⟩

/-- C8, counterexample: hostname construction and parsing are not exact
inverses for every name and namespace — constructing from the dotted name
a.b and namespace c and parsing back yields name a and namespace b, not a.b
and c. -/
theorem c8_roundtrip_counterexample :
    parseHostname (serviceHostname "a.b" "c" "s") = some ("a", "b") ∧
    parseHostname (serviceHostname "a.b" "c" "s") ≠ some ("a.b", "c") :=
  ⟨by decide, by decide⟩

/-- C8, amended: for dot-free service names and namespaces construction and
parsing are exact inverses — parsing the constructed hostname yields back
the name and namespace, and any parse result reconstructs (under the same
suffix) the original hostname. -/
theorem c8_roundtrip_amended (name ns suffix : String)
    (h1 : ∀ ch ∈ name.data, ch ≠ '.') (h2 : ∀ ch ∈ ns.data, ch ≠ '.') :
    parseHostname (serviceHostname name ns suffix) = some (name, ns) ∧
    ∀ pn pns, parseHostname (serviceHostname name ns suffix) = some (pn, pns) →
      serviceHostname pn pns suffix = serviceHostname name ns suffix := by
  have hmain := parseHostname_serviceHostname name ns suffix h1 h2
  refine ⟨hmain, ?_⟩
  intro pn pns hp
  rw [hmain] at hp
  simp only [Option.some.injEq, Prod.mk.injEq] at hp
  obtain ⟨rfl, rfl⟩ := hp
  rfl

/-- C8 witness: the round trip at a concrete dot-free name and namespace. -/
theorem c8_roundtrip_witness :
    (∀ ch ∈ ("productpage" : String).data, ch ≠ '.') ∧
    (∀ ch ∈ ("ns1" : String).data, ch ≠ '.') ∧
    parseHostname (serviceHostname "productpage" "ns1" "cluster.local") =
      some ("productpage", "ns1") :=
  ⟨by decide, by decide,
   (c8_roundtrip_amended "productpage" "ns1" "cluster.local" (by decide)
     (by decide)).1⟩

/-- C9: every invocation performed by the instance-handler stage passes an
instance with only the Service field populated (endpoint, tags and
availability zone are zero values) and requires that the service lookup and
conversion both succeeded; when either fails the stage performs no
invocation. -/
theorem c9_instance_handler (c : ControllerState) (ep : KubeEndpoints)
    (e : Event) :
    (∀ p ∈ (instanceHandlerStage c ep e).1,
      p.1.endpoint = default ∧ p.1.tags = [] ∧ p.1.availabilityZone = "" ∧
      p.2 = e ∧
      ∃ item, serviceByKey c ep.name ep.ns = some item ∧
              convertService item c.domainSuffix = some p.1.service) ∧
    ((serviceByKey c ep.name ep.ns).bind
        (fun item => convertService item c.domainSuffix) = none →
      (instanceHandlerStage c ep e).1 = []) := by
  unfold instanceHandlerStage
  rcases hk : serviceByKey c ep.name ep.ns with _ | item
  · simp
  · rcases hc : convertService item c.domainSuffix with _ | svc
    · simp [hc]
    · simp [hc]

/-- C9 witness: the concrete invocation on c3state has only the Service field
populated and comes with a successful lookup and conversion. -/
theorem c9_instance_handler_witness :
    c9pair ∈ (instanceHandlerStage c3state c3ep Event.add).1 ∧
    (c9pair.1.endpoint = default ∧ c9pair.1.tags = [] ∧
     c9pair.1.availabilityZone = "" ∧ c9pair.2 = Event.add ∧
     ∃ item, serviceByKey c3state c3ep.name c3ep.ns = some item ∧
             convertService item c3state.domainSuffix = some c9pair.1.service) :=
  ⟨by decide,
   (c9_instance_handler c3state c3ep Event.add).1 c9pair (by decide)⟩

/-- C10: the stages appended by AppendServiceHandler and
AppendInstanceHandler return success for every object and event, so a
registered callback can never force a retry; and the service-change callback
receives only successfully converted services. -/
theorem c10_handler_stages (c : ControllerState) (obj : KubeService)
    (ep : KubeEndpoints) (e : Event) :
    (serviceHandlerStage c obj e).2 = Except.ok () ∧
    (instanceHandlerStage c ep e).2 = Except.ok () ∧
    ∀ p ∈ (serviceHandlerStage c obj e).1,
      convertService obj c.domainSuffix = some p.1 ∧ p.2 = e := by
  refine ⟨?_, ?_, ?_⟩
  · unfold serviceHandlerStage; split <;> rfl
  · unfold instanceHandlerStage; split
    · rfl
    · split <;> rfl
  · unfold serviceHandlerStage
    rcases hc : convertService obj c.domainSuffix with _ | svc
    · simp
    · simp

/-- C10 witness: the concrete service-handler invocation on c3state carries
the successfully converted service and the delivered event. -/
theorem c10_handler_stages_witness :
    c10pair ∈ (serviceHandlerStage c3state demoSvc Event.add).1 ∧
    convertService demoSvc c3state.domainSuffix = some c10pair.1 ∧
    c10pair.2 = Event.add :=
  ⟨by decide,
   (c10_handler_stages c3state demoSvc c3ep Event.add).2.2 c10pair (by decide)⟩

end PilotKube
